import Mathlib

/-!
Shallow embedding of `cinder/volume/driver.py` (OpenStack Cinder volume
driver base classes): the retryable shell executor, the iSCSI
connection-property resolver, and the attach / copy / detach protocol of
`VolumeDriver`, together with proofs about them.

Python-level conventions used throughout:
* a Python exception is modelled by the `PyErr` inductive and fallible
  calls return `Except PyErr _`;
* a Python string field that may be `None` is an `Option String`, with
  Python truthiness (`if s:`) given by `optStrTruthy`;
* external collaborators (`self._execute`, `image_utils.fetch_to_raw`,
  the brick `InitiatorConnector`, ...) are oracles supplied as explicit
  arguments, and the calls a method makes are recorded in an event trace.
-/

/-- Exceptions that the modelled code can raise.  `invalidVolume`,
`deviceUnavailable` and `processExecutionError` are the typed cinder
exceptions `exception.InvalidVolume`, `exception.DeviceUnavailable` and
`exception.ProcessExecutionError`; `valueError` and `indexError` are the
untyped Python builtins. -/
inductive PyErr where
  | valueError
  | indexError
  | invalidVolume (reason : String)
  | deviceUnavailable (path : String)
  | processExecutionError (stderr : String)
  deriving DecidableEq, Repr

/-- Python's substring test `item in err`, on the character lists of the
two strings (`pyStrIn item s` is `item in s` in Python). -/
def pyInfixOf (p : List Char) : List Char → Bool
  | [] => p.isEmpty
  | c :: rest => p.isPrefixOf (c :: rest) || pyInfixOf p rest

/-- `pyStrIn item s` models the Python expression `item in s`. -/
def pyStrIn (item s : String) : Bool :=
  pyInfixOf item.data s.data

/-- Cut a character list at every character satisfying `p`, keeping
empty pieces; `acc` holds the current piece reversed. -/
def pySplitPredAux (p : Char → Bool) : List Char → List Char → List String
  | acc, [] => [String.mk acc.reverse]
  | acc, c :: rest =>
      if p c then String.mk acc.reverse :: pySplitPredAux p [] rest
      else pySplitPredAux p (c :: acc) rest

/-- Python `s.split(sep)` for a one-character separator: cut at every
occurrence of the separator, keeping empty pieces. -/
def pySplitChar (sep : Char) (s : String) : List String :=
  pySplitPredAux (fun c => c = sep) [] s.data

/-- Python `str.split()` with no separator: split on whitespace and drop
the empty pieces, so runs of whitespace count as one separator. -/
def pySplitWs (s : String) : List String :=
  (pySplitPredAux Char.isWhitespace [] s.data).filter (fun piece => piece ≠ "")

/-- Python `str.splitlines()` for `\n`-separated text: like splitting on
the newline character, but the empty string yields no lines and a text
ending in a newline yields no final empty line. -/
def pySplitLines (s : String) : List String :=
  if s = "" then []
  else if s.data.getLast? = some '\n' then (pySplitChar '\n' s).dropLast
  else pySplitChar '\n' s

/-- `VolumeDriver._is_non_recoverable(err, non_recoverable_list)`:
true when any item of the list occurs as a substring of `err`. -/
def is_non_recoverable (err : String) (non_recoverable_list : List String) : Bool :=
  non_recoverable_list.any (fun item => pyStrIn item err)

/-- The slice of driver configuration the modelled code reads
(`num_shell_tries`, `iscsi_ip_address`, `volume_driver`, `iscsi_helper`). -/
structure Config where
  num_shell_tries : Nat
  iscsi_ip_address : String
  volume_driver : String
  iscsi_helper : String
  deriving Repr

/-- One response of the `self._execute` oracle: the command either runs
cleanly or raises `ProcessExecutionError` with the given stderr text. -/
inductive ExecOutcome where
  | success
  | failure (stderr : String)
  deriving DecidableEq, Repr

/-- Result of `VolumeDriver._try_execute`, annotated with the number of
underlying `self._execute` invocations that occurred. -/
inductive TryExecResult where
  | succeeded (attempts : Nat)
  | raised (attempts : Nat) (stderr : String)
  | oracleExhausted (failuresSoFar : Nat)
  deriving DecidableEq, Repr

/-- The `while True` loop of `VolumeDriver._try_execute`, driven by the
list of successive `self._execute` outcomes.  `tries` is the Python
local `tries` (failures so far).  On the `i`-th failure the loop raises
iff `tries >= num_shell_tries` or the stderr matches the
`no_retry_list`; otherwise it sleeps `tries ** 2` (irrelevant to the
model) and re-runs.  `oracleExhausted` marks runs whose outcome list is
too short to decide the loop. -/
def try_execute_loop (cfg : Config) (no_retry_list : List String) :
    Nat → List ExecOutcome → TryExecResult
  | tries, [] => .oracleExhausted tries
  | tries, .success :: _ => .succeeded (tries + 1)
  | tries, .failure e :: rest =>
      if cfg.num_shell_tries ≤ tries + 1 ∨ is_non_recoverable e no_retry_list then
        .raised (tries + 1) e
      else
        try_execute_loop cfg no_retry_list (tries + 1) rest

/-- `VolumeDriver._try_execute(*command, no_retry_list=...)`, entered
with `tries = 0`. -/
def try_execute (cfg : Config) (no_retry_list : List String)
    (outcomes : List ExecOutcome) : TryExecResult :=
  try_execute_loop cfg no_retry_list 0 outcomes

theorem try_execute_loop_succeeds (cfg : Config) (no_retry_list : List String)
    (rest : List ExecOutcome) :
    ∀ (errs : List String) (tries : Nat),
      tries + errs.length < cfg.num_shell_tries →
      (∀ e ∈ errs, is_non_recoverable e no_retry_list = false) →
      try_execute_loop cfg no_retry_list tries
          (errs.map ExecOutcome.failure ++ ExecOutcome.success :: rest) =
        .succeeded (tries + errs.length + 1)
  | [], tries, _, _ => by simp [try_execute_loop]
  | e :: errs, tries, hlt, hnr => by
      have hnr0 : is_non_recoverable e no_retry_list = false :=
        hnr e (List.mem_cons_self e errs)
      have hlt1 : ¬ cfg.num_shell_tries ≤ tries + 1 := by
        simp only [List.length_cons] at hlt
        omega
      have ih := try_execute_loop_succeeds cfg no_retry_list rest errs (tries + 1)
        (by simp only [List.length_cons] at hlt; omega)
        (fun x hx => hnr x (List.mem_cons_of_mem e hx))
      have hcond : ¬ (cfg.num_shell_tries ≤ tries + 1 ∨
          is_non_recoverable e no_retry_list = true) := by
        simp [hnr0, hlt1]
      simp only [List.map_cons, List.cons_append, try_execute_loop, if_neg hcond,
        List.append_eq, ih, List.length_cons, TryExecResult.succeeded.injEq]
      omega

/-- C4: a command that fails `k` times with `k < num_shell_tries`, none
of the failures matching a non-recoverable pattern, and then succeeds,
makes `_try_execute` return success after exactly `k + 1` underlying
invocations. -/
theorem claim_C4_retry_until_success (cfg : Config) (no_retry_list : List String)
    (errs : List String) (rest : List ExecOutcome)
    (hk : errs.length < cfg.num_shell_tries)
    (hnr : ∀ e ∈ errs, is_non_recoverable e no_retry_list = false) :
    try_execute cfg no_retry_list
        (errs.map ExecOutcome.failure ++ ExecOutcome.success :: rest) =
      .succeeded (errs.length + 1) := by
  have h := try_execute_loop_succeeds cfg no_retry_list rest errs 0 (by omega) hnr
  simpa [try_execute] using h

theorem claim_C4_retry_until_success_witness :
    (2 : Nat) < 3 ∧
    try_execute ⟨3, "", "", ""⟩ ["fatal"]
        [ExecOutcome.failure "timeout a", ExecOutcome.failure "timeout b",
          ExecOutcome.success] =
      .succeeded 3 := by
  constructor
  · decide
  · have h := claim_C4_retry_until_success ⟨3, "", "", ""⟩ ["fatal"]
      ["timeout a", "timeout b"] [] (by decide) (by decide)
    simpa using h

/-- C5: a command whose first failure's stderr contains a pattern from
the `no_retry_list` makes `_try_execute` re-raise immediately: exactly
one underlying invocation happens and the `ProcessExecutionError`
(with that stderr) is surfaced. -/
theorem claim_C5_non_recoverable_single_attempt (cfg : Config)
    (no_retry_list : List String) (e : String) (rest : List ExecOutcome)
    (h : is_non_recoverable e no_retry_list = true) :
    try_execute cfg no_retry_list (ExecOutcome.failure e :: rest) =
      .raised 1 e := by
  simp [try_execute, try_execute_loop, h]

theorem claim_C5_non_recoverable_single_attempt_witness :
    is_non_recoverable "iscsiadm: No such device" ["No such device"] = true ∧
    try_execute ⟨3, "", "", ""⟩ ["No such device"]
        [ExecOutcome.failure "iscsiadm: No such device", ExecOutcome.success] =
      .raised 1 "iscsiadm: No such device" :=
  ⟨by decide,
    claim_C5_non_recoverable_single_attempt ⟨3, "", "", ""⟩ ["No such device"]
      "iscsiadm: No such device" [ExecOutcome.success] (by decide)⟩

/-- Tail of a digit run for Python `int()`: after a digit, further ASCII
digits may follow, with a single underscore allowed only between two
digits. -/
def pyDigitsTail : List Char → Bool
  | [] => true
  | '_' :: [] => false
  | '_' :: d :: rest => d.isDigit && pyDigitsTail (d :: rest)
  | c :: rest => c.isDigit && pyDigitsTail rest

/-- A valid digit part for Python `int()`: nonempty, starting with a
digit, underscores only between digits. -/
def pyDigitsOk : List Char → Bool
  | [] => false
  | c :: rest => c.isDigit && pyDigitsTail rest

/-- Value of a digit run, underscores skipped. -/
def pyDigitsVal (l : List Char) : Nat :=
  (l.filter (fun c => c ≠ '_')).foldl (fun a c => a * 10 + (c.toNat - 48)) 0

/-- Python `int(s)` restricted to ASCII decimal literals: strip
surrounding whitespace, allow one optional sign, then a valid digit run;
anything else raises `ValueError`, modelled as `none`. -/
def pyInt (s : String) : Option Int :=
  let l := ((s.data.dropWhile Char.isWhitespace).reverse.dropWhile
    Char.isWhitespace).reverse
  match l with
  | '+' :: rest => if pyDigitsOk rest then some (pyDigitsVal rest : Int) else none
  | '-' :: rest => if pyDigitsOk rest then some (-(pyDigitsVal rest : Int)) else none
  | _ => if pyDigitsOk l then some (pyDigitsVal l : Int) else none

/-- The volume-entity fields the modelled code reads.
`provider_location`, `provider_auth` and `provider_geometry` may be
Python `None`. -/
structure Volume where
  name : String
  host : String
  id : String
  provider_location : Option String
  provider_auth : Option String
  provider_geometry : Option String
  deriving DecidableEq, Repr

/-- Python truthiness of a string-or-None value: `None` and `""` are
falsy. -/
def optStrTruthy : Option String → Bool
  | none => false
  | some s => s ≠ ""

/-- `ISCSIDriver._do_iscsi_discovery`: run the `iscsiadm ... discovery`
command (its stdout is the oracle argument `discovery_out`) and return
the first output line containing both the configured `iscsi_ip_address`
and the volume's name; `none` models the Python `return None`. -/
def do_iscsi_discovery (cfg : Config) (discovery_out : String)
    (volume : Volume) : Option String :=
  (pySplitLines discovery_out).find? (fun target =>
    pyStrIn cfg.iscsi_ip_address target && pyStrIn volume.name target)

/-- The property dictionary built by `ISCSIDriver._get_iscsi_properties`;
the optional fields are the keys that are only set when auth / geometry
information is present on the volume. -/
structure IscsiProperties where
  target_discovered : Bool
  target_portal : String
  target_iqn : String
  target_lun : Int
  volume_id : String
  auth_method : Option String := none
  auth_username : Option String := none
  auth_password : Option String := none
  physical_block_size : Option String := none
  logical_block_size : Option String := none
  deriving DecidableEq, Repr

/-- `ISCSIDriver._get_iscsi_properties(volume)`.  The persisted
`provider_location` is used when truthy, otherwise discovery runs (its
stdout supplied as `discovery_out`) and an untruthy result raises
`exception.InvalidVolume`.  The location record is split on single
spaces; field 0 up to the first comma is the portal, field 1 the IQN
(absent field 1 raises `IndexError`, uncaught, as `results[1]` does);
`int(results[2])` failing with `IndexError` or `ValueError` selects the
backend/helper default-LUN policy.  A truthy `provider_auth` is
whitespace-split and unpacked into exactly three names (else the
untyped `ValueError` of tuple unpacking); likewise `provider_geometry`
into two. -/
def get_iscsi_properties (cfg : Config) (discovery_out : String)
    (volume : Volume) : Except PyErr IscsiProperties :=
  let locDisc : Except PyErr (String × Bool) :=
    if optStrTruthy volume.provider_location then
      .ok (volume.provider_location.getD "", false)
    else
      let found := do_iscsi_discovery cfg discovery_out volume
      if optStrTruthy found then
        .ok (found.getD "", true)
      else
        .error (.invalidVolume
          ("Could not find iSCSI export for volume " ++ volume.name))
  match locDisc with
  | .error e => .error e
  | .ok (location, target_discovered) =>
    let results := pySplitChar ' ' location
    let target_portal := ((pySplitChar ',' (results.headD "")).headD "")
    match results.get? 1 with
    | none => .error .indexError
    | some target_iqn =>
      let target_lun : Int :=
        match (results.get? 2).bind pyInt with
        | some n => n
        | none =>
            if (cfg.volume_driver = "cinder.volume.drivers.lvm.LVMISCSIDriver" ∨
                cfg.volume_driver = "cinder.volume.drivers.lvm.ThinLVMVolumeDriver") ∧
                cfg.iscsi_helper = "tgtadm" then 1 else 0
      let base : IscsiProperties :=
        { target_discovered := target_discovered,
          target_portal := target_portal,
          target_iqn := target_iqn,
          target_lun := target_lun,
          volume_id := volume.id }
      let afterAuth : Except PyErr IscsiProperties :=
        if optStrTruthy volume.provider_auth then
          match pySplitWs (volume.provider_auth.getD "") with
          | [auth_method, auth_username, auth_secret] =>
              .ok { base with auth_method := some auth_method,
                              auth_username := some auth_username,
                              auth_password := some auth_secret }
          | _ => .error .valueError
        else .ok base
      match afterAuth with
      | .error e => .error e
      | .ok props =>
        if optStrTruthy volume.provider_geometry then
          match pySplitWs (volume.provider_geometry.getD "") with
          | [physical_block_size, logical_block_size] =>
              .ok { props with
                      physical_block_size := some physical_block_size,
                      logical_block_size := some logical_block_size }
          | _ => .error .valueError
        else .ok props

/-- C6: the location string `"10.0.0.5:3260,1 iqn.example:target 2"`
resolves to portal `"10.0.0.5:3260"` (first space-separated field up to
the first comma), IQN `"iqn.example:target"` (second field) and LUN `2`
(third field parsed as an integer). -/
theorem claim_C6_location_parse :
    get_iscsi_properties ⟨3, "10.0.0.5", "drv", "helper"⟩ ""
        ⟨"volume-0001", "host1", "vol-id-1",
          some "10.0.0.5:3260,1 iqn.example:target 2", none, none⟩ =
      .ok { target_discovered := false, target_portal := "10.0.0.5:3260",
            target_iqn := "iqn.example:target", target_lun := 2,
            volume_id := "vol-id-1" } := by
  rfl

/-- C7: when the location record has its first two fields but the third
(LUN) field is absent or not a valid integer, the resolved LUN is 1 for
the `LVMISCSIDriver`/`ThinLVMVolumeDriver` + `tgtadm` combinations and 0
for every other backend/helper combination. -/
theorem claim_C7_default_lun_policy (cfg : Config)
    (location name host id : String)
    (hloc : location ≠ "")
    (hfields : 2 ≤ (pySplitChar ' ' location).length)
    (hlun : ((pySplitChar ' ' location).get? 2).bind pyInt = none) :
    get_iscsi_properties cfg "" ⟨name, host, id, some location, none, none⟩ =
      .ok { target_discovered := false,
            target_portal :=
              (pySplitChar ',' ((pySplitChar ' ' location).headD "")).headD "",
            target_iqn := (pySplitChar ' ' location).get ⟨1, by omega⟩,
            target_lun :=
              if (cfg.volume_driver = "cinder.volume.drivers.lvm.LVMISCSIDriver" ∨
                  cfg.volume_driver = "cinder.volume.drivers.lvm.ThinLVMVolumeDriver") ∧
                  cfg.iscsi_helper = "tgtadm" then 1 else 0,
            volume_id := id } := by
  have hiqn : (pySplitChar ' ' location).get? 1 =
      some ((pySplitChar ' ' location).get ⟨1, by omega⟩) :=
    List.get?_eq_get (by omega)
  simp only [List.get?_eq_getElem?] at hiqn hlun
  simp [get_iscsi_properties, optStrTruthy, hiqn, hlun, hloc]

theorem claim_C7_default_lun_policy_witness :
    ("10.0.0.5:3260,1 iqn.example:target" ≠ "" ∧
      2 ≤ (pySplitChar ' ' "10.0.0.5:3260,1 iqn.example:target").length ∧
      ((pySplitChar ' ' "10.0.0.5:3260,1 iqn.example:target").get? 2).bind pyInt
        = none) ∧
    get_iscsi_properties
        ⟨3, "10.0.0.5", "cinder.volume.drivers.lvm.LVMISCSIDriver", "tgtadm"⟩ ""
        ⟨"volume-0001", "host1", "vol-id-1",
          some "10.0.0.5:3260,1 iqn.example:target", none, none⟩ =
      .ok { target_discovered := false, target_portal := "10.0.0.5:3260",
            target_iqn := "iqn.example:target", target_lun := 1,
            volume_id := "vol-id-1" } := by
  refine ⟨⟨by decide, by decide, by rfl⟩, ?_⟩
  have h := claim_C7_default_lun_policy
    ⟨3, "10.0.0.5", "cinder.volume.drivers.lvm.LVMISCSIDriver", "tgtadm"⟩
    "10.0.0.5:3260,1 iqn.example:target" "volume-0001" "host1" "vol-id-1"
    (by decide) (by decide) (by rfl)
  simpa using h

/-- C8: with no truthy persisted `provider_location` and no discovery
output line containing both the configured `iscsi_ip_address` and the
volume's name, property resolution raises the typed
`exception.InvalidVolume` ("Could not find iSCSI export ..."), the
code's no-export-found error. -/
theorem claim_C8_no_export_found (cfg : Config) (discovery_out : String)
    (volume : Volume)
    (hloc : optStrTruthy volume.provider_location = false)
    (hnone : ∀ line ∈ pySplitLines discovery_out,
      ¬ (pyStrIn cfg.iscsi_ip_address line = true ∧
         pyStrIn volume.name line = true)) :
    get_iscsi_properties cfg discovery_out volume =
      .error (.invalidVolume
        ("Could not find iSCSI export for volume " ++ volume.name)) := by
  have hfind : do_iscsi_discovery cfg discovery_out volume = none := by
    refine List.find?_eq_none.mpr (fun line hline => ?_)
    simp only [Bool.and_eq_true]
    intro hboth
    exact hnone line hline ⟨hboth.1, hboth.2⟩
  cases hplv : volume.provider_location with
  | none => simp [get_iscsi_properties, hplv, hfind, optStrTruthy]
  | some s =>
    have hs : s = "" := by
      by_contra hne
      simp [hplv, optStrTruthy, hne] at hloc
    subst hs
    simp [get_iscsi_properties, hplv, hfind, optStrTruthy]

theorem claim_C8_no_export_found_witness :
    (optStrTruthy (none : Option String) = false ∧
      (∀ line ∈ pySplitLines "10.0.0.2:3260,1 iqn.other:volume-9999\nnoise",
        ¬ (pyStrIn "10.0.0.1" line = true ∧ pyStrIn "volume-0001" line = true))) ∧
    get_iscsi_properties ⟨3, "10.0.0.1", "drv", "helper"⟩
        "10.0.0.2:3260,1 iqn.other:volume-9999\nnoise"
        ⟨"volume-0001", "host1", "vol-id-1", none, none, none⟩ =
      .error (.invalidVolume
        "Could not find iSCSI export for volume volume-0001") := by
  refine ⟨⟨by decide, by decide⟩, ?_⟩
  have h := claim_C8_no_export_found ⟨3, "10.0.0.1", "drv", "helper"⟩
    "10.0.0.2:3260,1 iqn.other:volume-9999\nnoise"
    ⟨"volume-0001", "host1", "vol-id-1", none, none, none⟩
    (by decide) (by decide)
  simpa using h

/-- C9 counterexample: a volume with a well-formed location and the
two-field auth string `"CHAP user"` makes `_get_iscsi_properties` raise
the untyped builtin `ValueError` of tuple unpacking
(`(a, b, c) = auth.split()`), not the typed cinder exception
(`exception.InvalidVolume`, the code's `ConnectionPropertyError`), so
the claim that a malformed persisted auth record fails with a typed
error is false. -/
theorem claim_C9_counterexample :
    get_iscsi_properties ⟨3, "10.0.0.1", "drv", "helper"⟩ ""
        ⟨"volume-0001", "host1", "vol-id-1",
          some "10.0.0.5:3260,1 iqn.example:target 2", some "CHAP user", none⟩ =
      .error PyErr.valueError := by
  rfl

/-- C9 amended: for every volume whose location record parses (first two
fields present) and whose truthy persisted auth string does not split
into exactly three whitespace-separated fields, property resolution
raises the untyped Python `ValueError` coming from tuple unpacking —
not a typed cinder exception. -/
theorem claim_C9_malformed_auth_value_error (cfg : Config)
    (discovery_out name host id location auth : String)
    (geometry : Option String)
    (hloc : location ≠ "")
    (hfields : 2 ≤ (pySplitChar ' ' location).length)
    (hauth : auth ≠ "")
    (hsplit : (pySplitWs auth).length ≠ 3) :
    get_iscsi_properties cfg discovery_out
        ⟨name, host, id, some location, some auth, geometry⟩ =
      .error PyErr.valueError := by
  have hiqn : (pySplitChar ' ' location).get? 1 =
      some ((pySplitChar ' ' location).get ⟨1, by omega⟩) :=
    List.get?_eq_get (by omega)
  simp only [List.get?_eq_getElem?] at hiqn
  rcases hws : pySplitWs auth with _ | ⟨a, _ | ⟨b, _ | ⟨c, _ | ⟨d, l⟩⟩⟩⟩
  · simp [get_iscsi_properties, optStrTruthy, hiqn, hloc, hauth, hws]
  · simp [get_iscsi_properties, optStrTruthy, hiqn, hloc, hauth, hws]
  · simp [get_iscsi_properties, optStrTruthy, hiqn, hloc, hauth, hws]
  · exact absurd (by simp [hws]) hsplit
  · simp [get_iscsi_properties, optStrTruthy, hiqn, hloc, hauth, hws]

theorem claim_C9_malformed_auth_value_error_witness :
    ("10.0.0.5:3260,1 iqn.example:target 2" ≠ "" ∧
      2 ≤ (pySplitChar ' ' "10.0.0.5:3260,1 iqn.example:target 2").length ∧
      "CHAP user" ≠ "" ∧ (pySplitWs "CHAP user").length ≠ 3) ∧
    get_iscsi_properties ⟨3, "10.0.0.1", "drv", "helper"⟩ ""
        ⟨"volume-0001", "host1", "vol-id-1",
          some "10.0.0.5:3260,1 iqn.example:target 2", some "CHAP user",
          none⟩ =
      .error PyErr.valueError := by
  refine ⟨⟨by decide, by decide, by decide, by decide⟩, ?_⟩
  exact claim_C9_malformed_auth_value_error ⟨3, "10.0.0.1", "drv", "helper"⟩
    "" "volume-0001" "host1" "vol-id-1" "10.0.0.5:3260,1 iqn.example:target 2"
    "CHAP user" none (by decide) (by decide) (by decide) (by decide)

/-- The dictionary returned by `connector.connect_volume`: the modelled
code only reads `device['path']`. -/
structure Device where
  path : String
  deriving DecidableEq, Repr

/-- The dictionary returned by `initialize_connection`:
`driver_volume_type` tags the protocol and `data` (of abstract type `α`)
is the connection data handed to the brick connector. -/
structure Conn (α : Type) where
  driver_volume_type : String
  data : α
  deriving DecidableEq, Repr

/-- One call the attach / copy / detach protocol makes on a
collaborator, recorded with its arguments. -/
inductive Ev (α : Type) where
  | init_connection
  | connect_volume (data : α)
  | check_valid_device (path : String)
  | fetch_to_raw (path : String)
  | disconnect_volume (data : α) (device : Device)
  | terminate
  deriving DecidableEq, Repr

/-- Oracles for the external collaborators of
`VolumeDriver.copy_image_to_volume`: the backend's
`initialize_connection` / `terminate_connection`, the brick connector's
`connect_volume` / `check_valid_device` / `disconnect_volume`, and the
`image_utils.fetch_to_raw` body.  Each fallible call's behaviour is the
oracle's response; `α` is the connection-data type. -/
structure Collaborators (α : Type) where
  initialize_connection : Except PyErr (Conn α)
  connect_volume : α → Except PyErr Device
  check_valid_device : String → Bool
  disconnect_volume : α → Device → Except PyErr Unit
  fetch_to_raw : String → Except PyErr Unit
  terminate_connection : Except PyErr Unit

/-- `VolumeDriver._attach_volume(context, volume, properties)`: call
`initialize_connection`, hand `conn['data']` to the brick connector's
`connect_volume`, then `check_valid_device` on the returned path; an
invalid device raises `exception.DeviceUnavailable` directly — the
source performs no cleanup on that path.  Returns the event trace and
the Python result. -/
def attach_volume {α : Type} (c : Collaborators α) :
    List (Ev α) × Except PyErr (Conn α × Device) :=
  match c.initialize_connection with
  | .error e => ([.init_connection], .error e)
  | .ok conn =>
    match c.connect_volume conn.data with
    | .error e => ([.init_connection, .connect_volume conn.data], .error e)
    | .ok device =>
      if c.check_valid_device device.path then
        ([.init_connection, .connect_volume conn.data,
          .check_valid_device device.path], .ok (conn, device))
      else
        ([.init_connection, .connect_volume conn.data,
          .check_valid_device device.path],
          .error (.deviceUnavailable device.path))

/-- `VolumeDriver._detach_volume(connection, device, connector)`: a
single call to the brick connector's
`disconnect_volume(connection['data'], device)`. -/
def detach_volume {α : Type} (c : Collaborators α) (conn : Conn α)
    (device : Device) : List (Ev α) × Except PyErr Unit :=
  ([.disconnect_volume conn.data device], c.disconnect_volume conn.data device)

/-- `VolumeDriver.copy_image_to_volume`: `_attach_volume` (outside any
handler — its exceptions propagate with no teardown), then
`try: fetch_to_raw(..., device['path']) finally: _detach_volume(...);
terminate_connection(...)`.  Python `finally` semantics: the finally
suite runs; if a statement in it raises, that exception propagates and
discards the body's pending exception, and the rest of the suite does
not run; if the suite completes, the body's pending exception (if any)
propagates. -/
def copy_image_to_volume {α : Type} (c : Collaborators α) :
    List (Ev α) × Except PyErr Unit :=
  match attach_volume c with
  | (tr, .error e) => (tr, .error e)
  | (tr, .ok (conn, device)) =>
    let body := c.fetch_to_raw device.path
    match detach_volume c conn device with
    | (dtr, .error de) => (tr ++ [.fetch_to_raw device.path] ++ dtr, .error de)
    | (dtr, .ok _) =>
      match c.terminate_connection with
      | .error te =>
          (tr ++ [.fetch_to_raw device.path] ++ dtr ++ [.terminate], .error te)
      | .ok _ =>
          (tr ++ [.fetch_to_raw device.path] ++ dtr ++ [.terminate], body)

/-- `ISCSIDriver.initialize_connection(volume, connector)` for
`iscsi_helper` configurations other than `lioadm` (the `lioadm` branch
first delegates to a target-admin object that lives outside this file):
the resolved iSCSI properties are wrapped with the protocol tag
`iscsi`. -/
def initialize_connection_iscsi (cfg : Config) (discovery_out : String)
    (volume : Volume) : Except PyErr (Conn IscsiProperties) :=
  (get_iscsi_properties cfg discovery_out volume).map
    (fun props => { driver_volume_type := "iscsi", data := props })

/-- A run of the attach protocol in which `initialize_connection` and
`connect_volume` succeed (device path `/dev/sdb`) but
`check_valid_device` reports the device invalid. -/
def collabC1 : Collaborators String :=
  { initialize_connection := .ok ⟨"iscsi", "conn-data"⟩,
    connect_volume := fun _ => .ok ⟨"/dev/sdb"⟩,
    check_valid_device := fun _ => false,
    disconnect_volume := fun _ _ => .ok (),
    fetch_to_raw := fun _ => .ok (),
    terminate_connection := .ok () }

/-- C1: evaluation of the code at the failing input.  When
`connect_volume` succeeds and the subsequent `check_valid_device`
fails, `copy_image_to_volume` raises `exception.DeviceUnavailable` with
a trace that contains NO `disconnect_volume` call: `_attach_volume`
raises directly from the validation check and runs outside the
`try/finally`, so the connector-level resource is never released —
contradicting the claim (and the spec's scoped-acquisition guarantee)
that `connector.disconnect_volume` runs before the error propagates. -/
theorem claim_C1_leak_on_validation_failure :
    copy_image_to_volume collabC1 =
      ([.init_connection, .connect_volume "conn-data",
        .check_valid_device "/dev/sdb"],
        .error (.deviceUnavailable "/dev/sdb")) := by
  rfl

/-- C2: with a successful attach (`initialize_connection`,
`connect_volume` and the device validation all succeed) and teardown
sub-calls that do not themselves raise, `copy_image_to_volume` performs
the byte-stream copy against exactly the device path returned by
`connect_volume`, and its trace contains `disconnect_volume` and the
host-level terminate exactly once each, with disconnect strictly before
terminate — for every behaviour of the copy step, whose outcome
(success or exception) is what propagates. -/
theorem claim_C2_copy_bracketed {α : Type} (c : Collaborators α)
    (conn : Conn α) (device : Device)
    (hinit : c.initialize_connection = .ok conn)
    (hconn : c.connect_volume conn.data = .ok device)
    (hvalid : c.check_valid_device device.path = true)
    (hdisc : c.disconnect_volume conn.data device = .ok ())
    (hterm : c.terminate_connection = .ok ()) :
    copy_image_to_volume c =
      ([.init_connection, .connect_volume conn.data,
        .check_valid_device device.path, .fetch_to_raw device.path,
        .disconnect_volume conn.data device, .terminate],
        c.fetch_to_raw device.path) := by
  simp [copy_image_to_volume, attach_volume, detach_volume,
    hinit, hconn, hvalid, hdisc, hterm]

/-- The end-to-end run of spec property 7: the volume carries the
persisted location `"10.0.0.5:3260,1 iqn.example:target"` and no
auth/geometry; `initialize_connection` is the real iSCSI one, the
copy step raises, and the teardown sub-calls succeed (the host-level
terminate is the iSCSI driver's no-op). -/
def collabC2 : Collaborators IscsiProperties :=
  { initialize_connection := initialize_connection_iscsi
      ⟨3, "10.0.0.5", "drv", "helper"⟩ ""
      ⟨"volume-0001", "host1", "vol-id-1",
        some "10.0.0.5:3260,1 iqn.example:target", none, none⟩,
    connect_volume := fun _ => .ok ⟨"/dev/disk/by-path/ip-10.0.0.5"⟩,
    check_valid_device := fun _ => true,
    disconnect_volume := fun _ _ => .ok (),
    fetch_to_raw := fun _ => .error (.processExecutionError "qemu-img failed"),
    terminate_connection := .ok () }

/-- The properties `initialize_connection_iscsi` derives for the C2
volume (no LUN field and a non-default backend/helper, hence LUN 0). -/
def propsC2 : IscsiProperties :=
  { target_discovered := false, target_portal := "10.0.0.5:3260",
    target_iqn := "iqn.example:target", target_lun := 0,
    volume_id := "vol-id-1" }

theorem claim_C2_copy_bracketed_witness :
    (collabC2.initialize_connection = .ok ⟨"iscsi", propsC2⟩ ∧
      collabC2.connect_volume propsC2 = .ok ⟨"/dev/disk/by-path/ip-10.0.0.5"⟩ ∧
      collabC2.check_valid_device "/dev/disk/by-path/ip-10.0.0.5" = true) ∧
    copy_image_to_volume collabC2 =
      ([.init_connection, .connect_volume propsC2,
        .check_valid_device "/dev/disk/by-path/ip-10.0.0.5",
        .fetch_to_raw "/dev/disk/by-path/ip-10.0.0.5",
        .disconnect_volume propsC2 ⟨"/dev/disk/by-path/ip-10.0.0.5"⟩,
        .terminate],
        .error (.processExecutionError "qemu-img failed")) := by
  refine ⟨⟨rfl, rfl, rfl⟩, ?_⟩
  have h := claim_C2_copy_bracketed collabC2 ⟨"iscsi", propsC2⟩
    ⟨"/dev/disk/by-path/ip-10.0.0.5"⟩ rfl rfl rfl rfl rfl
  simpa using h

/-- A run in which the copy body raises and the teardown
`disconnect_volume` also raises. -/
def collabC3 : Collaborators String :=
  { initialize_connection := .ok ⟨"iscsi", "conn-data"⟩,
    connect_volume := fun _ => .ok ⟨"/dev/sdb"⟩,
    check_valid_device := fun _ => true,
    disconnect_volume := fun _ _ =>
      .error (.processExecutionError "disconnect failed"),
    fetch_to_raw := fun _ => .error (.processExecutionError "copy failed"),
    terminate_connection := .ok () }

/-- C3 counterexample: when the copy body raises `"copy failed"` and the
cleanup `disconnect_volume` raises `"disconnect failed"`, the error that
propagates out of `copy_image_to_volume` is the teardown failure, a
different error from the body failure — so the claim that the teardown
failure is logged-and-swallowed while the original body failure
propagates is false. -/
theorem claim_C3_counterexample :
    (copy_image_to_volume collabC3).2 =
      .error (.processExecutionError "disconnect failed") ∧
    PyErr.processExecutionError "disconnect failed" ≠
      PyErr.processExecutionError "copy failed" :=
  ⟨rfl, by decide⟩

/-- C3 amended: under a successful attach, when the copy body raises and
a teardown sub-call also raises, the teardown failure is what propagates
to the caller, replacing the body failure (Python `finally` semantics
discard the pending body exception); nothing is logged and swallowed.
A failing `disconnect_volume` masks the body error (and skips the
host-level terminate); when `disconnect_volume` succeeds, a failing
`terminate_connection` masks the body error. -/
theorem claim_C3_teardown_masks_body {α : Type} (c : Collaborators α)
    (conn : Conn α) (device : Device) (be de te : PyErr)
    (hinit : c.initialize_connection = .ok conn)
    (hconn : c.connect_volume conn.data = .ok device)
    (hvalid : c.check_valid_device device.path = true)
    (hbody : c.fetch_to_raw device.path = .error be) :
    (c.disconnect_volume conn.data device = .error de →
      (copy_image_to_volume c).2 = .error de) ∧
    (c.disconnect_volume conn.data device = .ok () →
      c.terminate_connection = .error te →
      (copy_image_to_volume c).2 = .error te) := by
  constructor
  · intro hde
    simp [copy_image_to_volume, attach_volume, detach_volume,
      hinit, hconn, hvalid, hbody, hde]
  · intro hok hte
    simp [copy_image_to_volume, attach_volume, detach_volume,
      hinit, hconn, hvalid, hbody, hok, hte]

theorem claim_C3_teardown_masks_body_witness :
    (collabC3.fetch_to_raw "/dev/sdb" =
        .error (.processExecutionError "copy failed") ∧
      collabC3.disconnect_volume "conn-data" ⟨"/dev/sdb"⟩ =
        .error (.processExecutionError "disconnect failed")) ∧
    (copy_image_to_volume collabC3).2 =
      .error (.processExecutionError "disconnect failed") := by
  refine ⟨⟨rfl, rfl⟩, ?_⟩
  exact (claim_C3_teardown_masks_body collabC3 ⟨"iscsi", "conn-data"⟩
    ⟨"/dev/sdb"⟩ (.processExecutionError "copy failed")
    (.processExecutionError "disconnect failed")
    (.processExecutionError "unused") rfl rfl rfl rfl).1 rfl

/-- `ISCSIDriver.terminate_connection(volume, connector, **kwargs)` is
literally `pass`: no calls are made and `None` is returned.  The empty
event trace records the absence of side effects. -/
def terminate_connection_iscsi {β : Type} (volume : Volume)
    (connector : β) : List (Ev Unit) × Except PyErr Unit :=
  ([], .ok ())

/-- C10: for every volume and connector argument, the iSCSI driver's
`terminate_connection` returns normally — no exception, no side effect —
so the host-level terminate step of teardown can never fail for this
driver. -/
theorem claim_C10_terminate_noop {β : Type} (volume : Volume)
    (connector : β) :
    terminate_connection_iscsi volume connector =
      ([], Except.ok ()) :=
  rfl

theorem claim_C10_terminate_noop_witness :
    terminate_connection_iscsi
        (⟨"volume-0001", "host1", "vol-id-1", none, none, none⟩ : Volume)
        "initiator-connector" =
      ([], Except.ok ()) :=
  claim_C10_terminate_noop
    ⟨"volume-0001", "host1", "vol-id-1", none, none, none⟩
    "initiator-connector"
